import Mathlib

/-!
Verification of the vram-helper monitor (src/vram_helper/__main__.py).

The script polls GPU memory usage and temperature through an external tool
and sends a desktop notification when usage crosses a moving threshold.
This file is a shallow embedding of that script:

* the module-level configuration globals become a `Config` record;
* the body of one iteration of the `start_monitoring` loop becomes the
  pure functions `rearm`, `fire` and `tick` over integer state;
* the error handling of `get_vram_usage`, `get_temp`, `update_variables`
  and `send_vram_warning` becomes total functions from the possible
  outcomes of the external tool invocation to the observable behaviour
  of the Python function (return / logged sys.exit / uncaught exception).

Python integers are modelled by `ℤ`.  The sampled values produced by the
source (regex matches of decimal digit runs) are non-negative, and all
thresholds reachable by the state machine stay non-negative, so `ℤ`
division below (Euclidean) agrees with Python's float-then-truncate
percentage computation at every value the program can actually produce;
the concrete capacities appearing in the claims (2048 and 8192) are
powers of two, for which the float computation is exact.
-/

namespace VramHelper

/-- The module-level configuration globals of the script
(lines 18-31 of src/vram_helper/__main__.py):
`MAX_VRAM_USAGE` (ceiling), `THRESHOLD` (step), `VRAM_TOTAL` (capacity),
`MAX_TEMP` (temperature ceiling). -/
structure Config where
  maxVramUsage : ℤ
  threshold : ℤ
  vramTotal : ℤ
  maxTemp : ℤ
  deriving DecidableEq

/-- The static default values of the globals: `MAX_VRAM_USAGE = 3800`,
`THRESHOLD = 100`, `VRAM_TOTAL = 2048`, `MAX_TEMP = 80`.  These are the
values in force when auto-detection is disabled with the noauto flag. -/
def staticConfig : Config := ⟨3800, 100, 2048, 80⟩

/-- The configuration of the end-to-end scenario in the spec:
Capacity 8192, Ceiling 3800, Step 100 (temperature ceiling 80). -/
def scenarioConfig : Config := ⟨3800, 100, 8192, 80⟩

/-- One sample per poll tick: memory used (MiB) and temperature (degrees
Celsius), as returned by `get_vram_usage` and `get_temp`. -/
structure Sample where
  used : ℤ
  temp : ℤ
  deriving DecidableEq

/-- Initial value of `last_warning_vram`, line 159 of the source:
`last_warning_vram = MAX_VRAM_USAGE - 20`. -/
def init (cfg : Config) : ℤ := cfg.maxVramUsage - 20

/-- The percentage shown in a warning, line 171 of the source: the Python
expression casts `(vram_usage / VRAM_TOTAL) * 100` to `int`, which
truncates toward zero; for the non-negative usages the source produces
and a positive capacity this is the floor, i.e. the integer division
below. -/
def warningPct (u total : ℤ) : ℤ := 100 * u / total

/-- The data carried by one emitted VRAM warning, lines 169-171 of the
source: the usage, the capacity, and the truncated percentage. -/
structure Warning where
  usage : ℤ
  total : ℤ
  pct : ℤ
  deriving DecidableEq

/-- The message string built on lines 169-171 of the source and passed to
`send_vram_warning`. -/
def warningMessage (w : Warning) : String :=
  "VRAM usage critical! " ++ toString w.usage ++ "/" ++ toString w.total ++
    "Mib, (" ++ toString w.pct ++ "%)"

/-- The re-arm statement, lines 164-165 of the source: if
`vram_usage < last_warning_vram - THRESHOLD` and
`last_warning_vram >= MAX_VRAM_USAGE` then `last_warning_vram` is
decremented by `THRESHOLD`, otherwise it is unchanged. -/
def rearm (cfg : Config) (t u : ℤ) : ℤ :=
  if u < t - cfg.threshold ∧ t ≥ cfg.maxVramUsage then t - cfg.threshold else t

/-- The fire statement, lines 167-171 of the source: if
`vram_usage > last_warning_vram + THRESHOLD` then `last_warning_vram` is
incremented by `THRESHOLD` and a warning carrying the usage, the capacity
and the truncated percentage is sent; otherwise nothing happens.  Returns
the new threshold and the (empty or singleton) list of warnings sent. -/
def fire (cfg : Config) (t u : ℤ) : ℤ × List Warning :=
  if u > t + cfg.threshold then
    (t + cfg.threshold, [⟨u, cfg.vramTotal, warningPct u cfg.vramTotal⟩])
  else (t, [])

/-- One iteration of the `start_monitoring` loop body, lines 161-171 of
the source: the re-arm statement runs first, then the fire statement
reads the (possibly decremented) threshold.  The temperature read on
line 162 is only interpolated into the informational log line 166; it
takes part in no comparison and triggers no warning, which is why `tick`
does not inspect `s.temp`.  (The `is not None` guard on line 163 is
always true, since `get_vram_usage` either returns an int or exits.) -/
def tick (cfg : Config) (t : ℤ) (s : Sample) : ℤ × List Warning :=
  fire cfg (rearm cfg t s.used) s.used

/-- The threshold after one iteration. -/
def tickThresh (cfg : Config) (t : ℤ) (s : Sample) : ℤ := (tick cfg t s).1

/-- The per-tick warning lists produced by running the loop from
threshold `t` over a list of samples. -/
def runTicks (cfg : Config) (t : ℤ) : List Sample → List (List Warning)
  | [] => []
  | s :: rest => (tick cfg t s).2 :: runTicks cfg (tickThresh cfg t s) rest

/-- The threshold after the loop has consumed a prefix of samples,
starting from the initial threshold of line 159. -/
def threshAfter (cfg : Config) (ss : List Sample) : ℤ :=
  ss.foldl (tickThresh cfg) (init cfg)

/-- All warnings emitted over a run from the initial threshold. -/
def allWarnings (cfg : Config) (ss : List Sample) : List Warning :=
  (runTicks cfg (init cfg) ss).flatten

/-- Possible outcomes of one `subprocess.check_output` metrics query as
seen by `get_vram_usage` / `get_temp` (lines 103-139 of the source):
the tool succeeded and its output contained a digit run parsed to a
value; the tool succeeded but the output contained no digits; the tool
ran and returned a non-zero status (`subprocess.CalledProcessError`);
the binary was absent (`FileNotFoundError`). -/
inductive QueryOutcome where
  | ok (value : ℤ)
  | okNoDigits
  | calledProcessError
  | fileNotFound
  deriving DecidableEq

/-- Observable behaviour of one Python function call: a normal return
with a value; a `sys.exit` with the given process exit code, after
optionally printing an error log line; or an exception propagating out
of the function uncaught. -/
inductive Termination where
  | returns (value : ℤ)
  | exitsWith (loggedError : Bool) (code : ℤ)
  | uncaughtException
  deriving DecidableEq

/-- The process exit code produced directly by a call, if it exits. -/
def Termination.exitCode : Termination → Option ℤ
  | .exitsWith _ c => some c
  | _ => none

/-- Error behaviour of `get_vram_usage`, lines 103-120 of the source.
On success the parsed integer is returned.  If the output has no digit
run, `re.search` returns `None` and `.group()` raises `AttributeError`,
which no handler catches.  On `CalledProcessError` and on
`FileNotFoundError` the function calls `log_err` and then `sys.exit()`
with no argument - and `sys.exit()` without an argument terminates the
process with exit code 0. -/
def get_vram_usage : QueryOutcome → Termination
  | .ok n => .returns n
  | .okNoDigits => .uncaughtException
  | .calledProcessError => .exitsWith true 0
  | .fileNotFound => .exitsWith true 0

/-- Error behaviour of `get_temp`, lines 122-139 of the source; the
handling is identical to `get_vram_usage`. -/
def get_temp : QueryOutcome → Termination
  | .ok n => .returns n
  | .okNoDigits => .uncaughtException
  | .calledProcessError => .exitsWith true 0
  | .fileNotFound => .exitsWith true 0

/-- Possible outcomes of the startup auto-detect queries issued by
`update_variables` (lines 68-100 of the source). -/
inductive StartupOutcome where
  | ok (total : ℤ)
  | calledProcessError
  | fileNotFound
  deriving DecidableEq

/-- Observable behaviour of `update_variables`: on success the detected
capacity is stored and monitoring proceeds; on `CalledProcessError` an
error is logged and the function returns normally, so monitoring still
starts (with the static globals); on `FileNotFoundError` an error is
logged and the process exits via `sys.exit()` (exit code 0). -/
inductive StartupResult where
  | detected (total : ℤ)
  | loggedAndContinued
  | exited (loggedError : Bool) (code : ℤ)
  deriving DecidableEq

/-- Whether a startup result terminates the process. -/
def StartupResult.fatal : StartupResult → Bool
  | .exited _ _ => true
  | _ => false

/-- Error behaviour of `update_variables`, lines 68-100 of the source:
the `except subprocess.CalledProcessError` arm (lines 95-96) only calls
`log_err` and falls through, while the `except FileNotFoundError` arm
(lines 98-100) calls `log_err` and then `sys.exit()` with no argument. -/
def update_variables : StartupOutcome → StartupResult
  | .ok total => .detected total
  | .calledProcessError => .loggedAndContinued
  | .fileNotFound => .exited true 0

/-- Possible outcomes of the `notify-send` invocation inside
`send_vram_warning` (lines 143-151 of the source). -/
inductive NotifyOutcome where
  | ok
  | calledProcessError
  | fileNotFound
  deriving DecidableEq

/-- Observable behaviour of `send_vram_warning`: delivery succeeded; a
failure was caught and logged and the caller continues; or an exception
escaped the function and the monitoring loop crashes. -/
inductive NotifyResult where
  | delivered
  | loggedAndContinued
  | raised
  deriving DecidableEq

/-- Whether the monitoring loop survives this notifier result. -/
def NotifyResult.keepsLooping : NotifyResult → Bool
  | .raised => false
  | _ => true

/-- Error behaviour of `send_vram_warning`, lines 143-151 of the source:
the only handler is `except subprocess.CalledProcessError`, which calls
`log_err` and returns; a `FileNotFoundError` (the `notify-send` binary
being absent) has no handler and propagates out of the function. -/
def send_vram_warning : NotifyOutcome → NotifyResult
  | .ok => .delivered
  | .calledProcessError => .loggedAndContinued
  | .fileNotFound => .raised

/-- Moving the threshold: one tick moves it down by one step, not at all,
or up by one step — never by more. -/
lemma tickThresh_cases (cfg : Config) (t : ℤ) (s : Sample) :
    tickThresh cfg t s = t - cfg.threshold ∨ tickThresh cfg t s = t ∨
      tickThresh cfg t s = t + cfg.threshold := by
  simp only [tickThresh, tick, fire, rearm]
  split_ifs <;> simp

/-- One tick of the statically configured machine preserves the lattice
`3780 + k * 100` (k a natural number), and any warning it emits reports a
percentage above 100: firing requires usage above the post-re-arm
threshold plus one step, hence usage at least 3881, and
`100 * 3881 / 2048 = 189`. -/
lemma static_tick_step (t : ℤ) (s : Sample) (k : ℕ) (hk : t = 3780 + k * 100) :
    (∃ kk : ℕ, tickThresh staticConfig t s = 3780 + kk * 100) ∧
      ∀ w ∈ (tick staticConfig t s).2, 100 < w.pct := by
  simp only [tickThresh, tick, fire, rearm, staticConfig, warningPct]
  split_ifs with h1 h2 h3
  · exact absurd h2 (by omega)
  · refine ⟨⟨k - 1, ?_⟩, by simp⟩
    have hk1 : 1 ≤ k := by omega
    simp only []
    omega
  · refine ⟨⟨k + 1, by push_cast; omega⟩, ?_⟩
    intro w hw
    simp only [List.mem_singleton] at hw
    subst hw
    show 100 < 100 * s.used / 2048
    omega
  · exact ⟨⟨k, hk⟩, by simp⟩

/-- Running the statically configured machine from any point of the
lattice keeps the threshold on the lattice and makes every emitted
warning report a percentage above 100. -/
lemma static_run_inv (ss : List Sample) :
    ∀ (t : ℤ) (k : ℕ), t = 3780 + k * 100 →
      (∃ kk : ℕ, ss.foldl (tickThresh staticConfig) t = 3780 + kk * 100) ∧
        ∀ w ∈ (runTicks staticConfig t ss).flatten, 100 < w.pct := by
  induction ss with
  | nil =>
    intro t k hk
    exact ⟨⟨k, hk⟩, by simp [runTicks]⟩
  | cons s rest ih =>
    intro t k hk
    obtain ⟨⟨k1, hk1⟩, hw⟩ := static_tick_step t s k hk
    obtain ⟨hfold, hrest⟩ := ih (tickThresh staticConfig t s) k1 hk1
    refine ⟨by simpa using hfold, ?_⟩
    intro w hw2
    simp only [runTicks, List.flatten_cons, List.mem_append] at hw2
    rcases hw2 with h | h
    · exact hw w h
    · exact hrest w h

/-- The truncated percentage computed by the code equals the floor of the
exact rational percentage, at the scenario capacity 8192. -/
lemma warningPct_eq_floor8192 (u : ℤ) :
    warningPct u 8192 = ⌊(100 * (u : ℚ)) / 8192⌋ := by
  have h := Rat.floor_intCast_div_natCast (100 * u) 8192
  push_cast at h
  rw [warningPct, ← h]

/-- C1: the claim says a temperature alert is emitted on every tick whose
sample has tempC above the ceiling, and never otherwise.  The code has no
temperature check at all: `start_monitoring` reads the temperature and only
interpolates it into the informational log line.  At the failing input — a
sample with temperature 100, well above the ceiling 80 — no alert of any kind
is emitted, and the loop-body output is entirely independent of the sample's
temperature field. -/
theorem c1_temp_alert_missing :
    tick staticConfig (init staticConfig) ⟨0, 100⟩ = (3780, []) ∧
      ∀ (cfg : Config) (t : ℤ) (s : Sample), tick cfg t s = tick cfg t ⟨s.used, 0⟩ :=
  ⟨by decide, fun _ _ _ => rfl⟩

/-- C2 counterexample: the starting threshold is `MAX_VRAM_USAGE - 20 = 3780`
(line 159 of the source), not `Ceiling - Step = 3700` as the claim states. -/
theorem c2_init_counterexample :
    init staticConfig = 3780 ∧
      init staticConfig ≠ staticConfig.maxVramUsage - staticConfig.threshold := by
  decide

/-- C2 amended: at the start of monitoring the threshold equals
`Ceiling - 20`; with Ceiling 3800 the starting threshold is 3780. -/
theorem c2_init_amended :
    (∀ cfg : Config, init cfg = cfg.maxVramUsage - 20) ∧ init staticConfig = 3780 :=
  ⟨fun _ => rfl, by decide⟩

/-- C3 counterexample: already for the empty prefix the threshold is 3780,
which is not of the form `Ceiling + k * Step = 3800 + k * 100` for any
integer k. -/
theorem c3_lattice_counterexample :
    threshAfter staticConfig [] = 3780 ∧
      ¬ ∃ k : ℤ, threshAfter staticConfig [] =
        staticConfig.maxVramUsage + k * staticConfig.threshold := by
  refine ⟨by decide, ?_⟩
  rintro ⟨k, hk⟩
  simp only [threshAfter, List.foldl_nil, init, staticConfig] at hk
  omega

/-- C3 amended: after any prefix of samples the threshold equals
`(Ceiling - 20) + k * Step = 3780 + k * 100` for some natural number k, and
between consecutive ticks it moves by minus one step, zero, or plus one step —
never by more than one step, however far the sample jumps. -/
theorem c3_lattice_amended :
    (∀ ss : List Sample, ∃ k : ℕ, threshAfter staticConfig ss = 3780 + k * 100) ∧
      ∀ (t : ℤ) (s : Sample),
        tickThresh staticConfig t s = t - 100 ∨ tickThresh staticConfig t s = t ∨
          tickThresh staticConfig t s = t + 100 := by
  constructor
  · intro ss
    have h0 : init staticConfig = 3780 := by decide
    have h := (static_run_inv ss 3780 0 (by norm_num)).1
    rw [threshAfter, h0]
    exact h
  · intro t s
    have h := tickThresh_cases staticConfig t s
    simpa [staticConfig] using h

/-- C4 counterexample: when the notification binary is absent
(`FileNotFoundError`), `send_vram_warning` has no handler for it; the
exception escapes the function, so the monitoring loop does not continue. -/
theorem c4_notifier_counterexample :
    send_vram_warning NotifyOutcome.fileNotFound = NotifyResult.raised ∧
      (send_vram_warning NotifyOutcome.fileNotFound).keepsLooping = false := by
  decide

/-- C4 amended: when the notification tool runs but returns non-zero
(`CalledProcessError`) the failure is logged and the loop continues; when the
tool is absent (`FileNotFoundError`) the exception propagates uncaught and
the monitoring loop crashes. -/
theorem c4_notifier_amended :
    send_vram_warning NotifyOutcome.calledProcessError = NotifyResult.loggedAndContinued ∧
      (send_vram_warning NotifyOutcome.calledProcessError).keepsLooping = true ∧
      send_vram_warning NotifyOutcome.fileNotFound = NotifyResult.raised ∧
      (send_vram_warning NotifyOutcome.fileNotFound).keepsLooping = false := by
  decide

/-- C5 counterexample: at usage 3892 and capacity 8192 the fire check emits a
warning whose percentage is 47 — the code truncates `100 * 3892 / 8192 =
47.5097...` toward zero — while rounding, as the claim states, gives 48.
(8192 is a power of two, so the Python float computation is exact here.) -/
theorem c5_pct_counterexample :
    fire scenarioConfig 3780 3892 = (3880, [⟨3892, 8192, 47⟩]) ∧
      round ((100 * 3892 : ℚ) / 8192) = 48 :=
  ⟨by decide, by norm_num [round_eq]⟩

/-- C5 amended: for every tick with usage U and post-re-arm threshold T, if
`U > T + Step` the threshold is incremented by exactly one step and an alert
is emitted carrying U, the capacity, and the percentage
`floor(100 * U / Capacity)` (truncation, not rounding); if `U ≤ T + Step` the
fire check emits nothing and leaves the threshold unchanged. -/
theorem c5_fire_amended (t u : ℤ) (hu : 0 ≤ u) :
    (t + 100 < u →
        fire scenarioConfig t u = (t + 100, [⟨u, 8192, ⌊(100 * (u : ℚ)) / 8192⌋⟩])) ∧
      (u ≤ t + 100 → fire scenarioConfig t u = (t, [])) := by
  constructor
  · intro h
    simp only [fire, scenarioConfig]
    rw [if_pos (by omega : u > t + 100), warningPct_eq_floor8192]
  · intro h
    simp only [fire, scenarioConfig]
    rw [if_neg (by omega : ¬ u > t + 100)]

/-- Witness for c5_fire_amended at threshold 3780 and usage 3950. -/
theorem c5_fire_amended_witness :
    fire scenarioConfig 3780 3950 =
      (3880, [⟨3950, 8192, ⌊(100 * ((3950 : ℤ) : ℚ)) / 8192⌋⟩]) :=
  (c5_fire_amended 3780 3950 (by norm_num)).1 (by norm_num)

/-- C6: the re-arm check: if `U < T - Step` and `T ≥ Ceiling` the threshold is
decremented by exactly one step; it is evaluated before the fire check (the
tick is the fire check applied to the re-armed threshold); when `T < Ceiling`
the re-arm check does not fire; and over every run from the initial state the
threshold never goes below `Ceiling - Step = 3700` (indeed it never goes below
3780). -/
theorem c6_rearm_floor (t u : ℤ) (ss : List Sample) :
    (u < t - 100 → 3800 ≤ t → rearm staticConfig t u = t - 100) ∧
      (∀ s : Sample,
        tick staticConfig t s = fire staticConfig (rearm staticConfig t s.used) s.used) ∧
      (t < 3800 → rearm staticConfig t u = t) ∧
      3800 - 100 ≤ threshAfter staticConfig ss := by
  refine ⟨?_, fun _ => rfl, ?_, ?_⟩
  · intro h1 h2
    simp only [rearm, staticConfig]
    rw [if_pos ⟨h1, h2⟩]
  · intro h
    simp only [rearm, staticConfig]
    rw [if_neg]
    rintro ⟨-, h2⟩
    omega
  · have h0 : init staticConfig = 3780 := by decide
    obtain ⟨k, hk⟩ := (static_run_inv ss 3780 0 (by norm_num)).1
    rw [threshAfter, h0]
    omega

/-- Witness for c6_rearm_floor: a qualifying tick decrements 3880 to 3780, a
below-ceiling threshold is left alone, and a short concrete run stays at or
above 3700. -/
theorem c6_rearm_floor_witness :
    rearm staticConfig 3880 3700 = 3780 ∧ rearm staticConfig 3780 3650 = 3780 ∧
      3800 - 100 ≤ threshAfter staticConfig [⟨3950, 40⟩, ⟨3650, 40⟩] := by
  refine ⟨?_, ?_, (c6_rearm_floor 0 0 [⟨3950, 40⟩, ⟨3650, 40⟩]).2.2.2⟩
  · have h := (c6_rearm_floor 3880 3700 []).1 (by decide) (by decide)
    omega
  · exact (c6_rearm_floor 3780 3650 []).2.2.1 (by decide)

/-- C7 counterexample: at startup, a metrics query that runs but returns
non-zero (`CalledProcessError` in `update_variables`) is logged and the
function returns normally — the process is not terminated, monitoring starts
with the static globals. -/
theorem c7_startup_counterexample :
    update_variables StartupOutcome.calledProcessError = StartupResult.loggedAndContinued ∧
      (update_variables StartupOutcome.calledProcessError).fatal = false := by
  decide

/-- C7 amended: the per-tick usage and temperature queries are fatal on both
failure modes (each logs and calls `sys.exit`); the startup auto-detect query
is fatal only when the tool is absent — when the tool runs but returns
non-zero the error is logged and monitoring proceeds with the static
values. -/
theorem c7_metrics_amended :
    get_vram_usage QueryOutcome.calledProcessError = Termination.exitsWith true 0 ∧
      get_vram_usage QueryOutcome.fileNotFound = Termination.exitsWith true 0 ∧
      get_temp QueryOutcome.calledProcessError = Termination.exitsWith true 0 ∧
      get_temp QueryOutcome.fileNotFound = Termination.exitsWith true 0 ∧
      update_variables StartupOutcome.fileNotFound = StartupResult.exited true 0 ∧
      update_variables StartupOutcome.calledProcessError = StartupResult.loggedAndContinued := by
  decide

/-- C8 counterexample: the internal fatal paths call `sys.exit()` with no
argument, which terminates the process with exit code 0 — not the non-zero
code the claim requires. -/
theorem c8_exitcode_counterexample :
    (get_vram_usage QueryOutcome.fileNotFound).exitCode = some 0 ∧
      (get_temp QueryOutcome.calledProcessError).exitCode = some 0 ∧
      (update_variables StartupOutcome.fileNotFound) = StartupResult.exited true 0 := by
  decide

/-- C8 amended: the tool-missing and tool-error paths of the per-tick queries
log the error and then exit with code 0 (bare `sys.exit()`); a parse failure
(output without digits) raises an uncaught `AttributeError`, terminating the
process without a logged error line.  Exit code 0 therefore does not
distinguish internal fatal termination from external termination. -/
theorem c8_exit_amended :
    (get_vram_usage QueryOutcome.calledProcessError = Termination.exitsWith true 0 ∧
        get_vram_usage QueryOutcome.fileNotFound = Termination.exitsWith true 0 ∧
        get_temp QueryOutcome.calledProcessError = Termination.exitsWith true 0 ∧
        get_temp QueryOutcome.fileNotFound = Termination.exitsWith true 0) ∧
      get_vram_usage QueryOutcome.okNoDigits = Termination.uncaughtException ∧
      get_temp QueryOutcome.okNoDigits = Termination.uncaughtException := by
  decide

/-- The five samples of the end-to-end scenario; the temperatures are
irrelevant to the loop body and set to 40. -/
def scenarioSamples : List Sample :=
  [⟨3000, 40⟩, ⟨3850, 40⟩, ⟨3950, 40⟩, ⟨3700, 40⟩, ⟨3650, 40⟩]

/-- C9: with capacity 8192, ceiling 3800, step 100, the samples
3000, 3850, 3950, 3700, 3650 produce exactly one alert — at the 3950
sample — carrying usage 3950, capacity 8192 and percentage 48, and the
formatted message contains the substrings 3950/8192 and 48%. -/
theorem c9_scenario :
    runTicks scenarioConfig (init scenarioConfig) scenarioSamples =
        [[], [], [⟨3950, 8192, 48⟩], [], []] ∧
      (∃ a b : String, warningMessage ⟨3950, 8192, 48⟩ = a ++ "3950/8192" ++ b) ∧
      ∃ a b : String, warningMessage ⟨3950, 8192, 48⟩ = a ++ "48%" ++ b :=
  ⟨by decide, ⟨"VRAM usage critical! ", "Mib, (48%)", by decide⟩,
    ⟨"VRAM usage critical! 3950/8192Mib, (", ")", by decide⟩⟩

/-- C10: under the static default configuration (capacity 2048, ceiling 3800,
step 100) the threshold never drops below 3780, and every memory alert ever
emitted reports a percentage strictly greater than 100: firing requires usage
above the threshold plus one step, hence at least 3881 MiB against a 2048 MiB
capacity. -/
theorem c10_static_over_100 (ss : List Sample) :
    3780 ≤ threshAfter staticConfig ss ∧
      ∀ w ∈ allWarnings staticConfig ss, 100 < w.pct := by
  have h0 : init staticConfig = 3780 := by decide
  obtain ⟨⟨k, hk⟩, hw⟩ := static_run_inv ss 3780 0 (by norm_num)
  constructor
  · rw [threshAfter, h0]
    omega
  · intro w hwmem
    apply hw
    simp only [allWarnings] at hwmem
    rwa [h0] at hwmem

/-- Witness for c10_static_over_100 at a single concrete sample that fires. -/
theorem c10_static_over_100_witness :
    3780 ≤ threshAfter staticConfig [⟨4000, 30⟩] ∧
      100 < (Warning.mk 4000 2048 195).pct :=
  ⟨(c10_static_over_100 [⟨4000, 30⟩]).1,
   (c10_static_over_100 [⟨4000, 30⟩]).2 ⟨4000, 2048, 195⟩ (by decide)⟩

end VramHelper
